import Mathlib

/-!
Shallow embedding of the metric-pulse repository's Customer Analytics Engine
(`src/analytics/clvCalculator.js`, class `CLVCalculator`) and ETL Orchestrator
(`src/pipelines/etlPipeline.js`, class `ETLPipeline`), together with theorems
settling the specification claims about them.

Modelling conventions:
* JS numbers are modelled as `Rat` (monetary values, probabilities) or
  `Nat`/`Int` (counts, day differences); fields that may be `null`/missing are
  `Option`s.
* A JS `Date` value is modelled as a calendar day index (days since epoch)
  plus milliseconds within the day.  `Date.prototype.toDateString` comparison
  (same calendar date, ignoring time of day) becomes comparison of the day
  index; date-fns `differenceInDays` is the number of full days between two
  timestamps, truncated toward zero.
* A JS function that can throw is modelled as returning `Except String _`.
* `order.customer_id` comes from a Postgres serial id (always ≥ 1) or SQL
  NULL, so the JS truthiness test `if (order.customer_id)` is modelled as
  `Option.isSome` (matching on `some`).
-/

namespace MetricPulse

/-- A JS `Date`: calendar day index (days since Unix epoch, may be negative)
plus milliseconds within that day. -/
structure DateTime where
  day : Int
  msOfDay : Nat
deriving DecidableEq

def msPerDay : Int := 86400000

/-- Milliseconds since epoch (`Date.prototype.getTime`). -/
def DateTime.toMs (d : DateTime) : Int := d.day * msPerDay + (d.msOfDay : Int)

/-- date-fns `differenceInDays(a, b)`: the number of full days between the two
timestamps, truncated toward zero (signed). -/
def differenceInDays (a b : DateTime) : Int := (a.toMs - b.toMs).tdiv msPerDay

/-- `a.toDateString() === b.toDateString()`: same calendar date, ignoring
time of day. -/
def sameDateString (a b : DateTime) : Bool := a.day == b.day

/-- Placeholder for JS `new Date(undefined)` (an Invalid Date).  Only reachable
from code paths the callers exclude (empty order lists). -/
def invalidDate : DateTime := ⟨0, 0⟩

/-- A canonical order line item, as consumed by `calculateDailyMetrics`. -/
structure LineItem where
  source_product_id : Option String
  title : String
  quantity : Option Nat
  price : Option Rat
deriving DecidableEq

/-- A canonical order, as consumed by the analytics engine. -/
structure Order where
  id : Nat
  customer_id : Option Nat
  total_price : Option Rat
  processed_at : DateTime
  source_name : Option String
  line_items : Option (List LineItem)
deriving DecidableEq

/-- A canonical customer; the analytics engine only reads its `id`. -/
structure Customer where
  id : Nat
deriving DecidableEq

/-- A canonical product; `calculateDailyMetrics` receives a product list but
never reads it. -/
structure Product where
  id : Nat
  title : String
deriving DecidableEq

/-- The `CustomerMetrics` record built by `calculateCustomerMetrics`. -/
structure CustomerMetrics where
  customer_id : Nat
  calculation_date : DateTime
  total_revenue : Rat
  total_orders : Nat
  average_order_value : Rat
  purchase_frequency : Rat
  customer_lifespan_days : Int
  customer_lifetime_value : Rat
  churn_probability : Rat
  days_since_last_purchase : Option Int
  rfm_recency_score : Nat
  rfm_frequency_score : Nat
  rfm_monetary_score : Nat
  customer_segment : String
deriving DecidableEq

/-- `calculateTotalRevenue(orders)`: left fold of `order.total_price || 0`. -/
def calculateTotalRevenue (orders : List Order) : Rat :=
  orders.foldl (fun sum order => sum + order.total_price.getD 0) 0

/-- `calculateSimpleCLV(metrics)`. -/
def calculateSimpleCLV (metrics : CustomerMetrics) : Rat :=
  let lifespanMonths := (metrics.customer_lifespan_days : Rat) / 30
  metrics.average_order_value * metrics.purchase_frequency * lifespanMonths

/-- `calculatePredictiveCLV(metrics)`: reads `metrics.churn_probability`
(whatever value the field holds at call time). -/
def calculatePredictiveCLV (metrics : CustomerMetrics) : Rat :=
  let monthlyRevenue := metrics.average_order_value * metrics.purchase_frequency
  let retentionRate := 1 - metrics.churn_probability
  let discountRate : Rat := (1/10) / 12
  if retentionRate ≥ 1 + discountRate then
    monthlyRevenue * 12 * 3
  else
    monthlyRevenue * (retentionRate / (1 + discountRate - retentionRate))

/-- `calculateChurnProbability(metrics)`: step function of
`metrics.days_since_last_purchase`.  (JS compares `null < 30` as `0 < 30`,
hence `getD 0`; all in-repo call sites have the field set.) -/
def calculateChurnProbability (metrics : CustomerMetrics) : Rat :=
  let daysSinceLastPurchase : Int := metrics.days_since_last_purchase.getD 0
  if daysSinceLastPurchase < 30 then 1/20
  else if daysSinceLastPurchase < 60 then 3/20
  else if daysSinceLastPurchase < 90 then 1/4
  else if daysSinceLastPurchase < 180 then 9/20
  else if daysSinceLastPurchase < 365 then 7/10
  else 9/10

/-- Modelled from the spec: the churn-probability table of §4.2 — a step
function of `daysSinceLastPurchase` with right-exclusive lower bounds
(`< 30 → 0.05`, `< 60 → 0.15`, `< 90 → 0.25`, `< 180 → 0.45`,
`< 365 → 0.70`, otherwise `0.90`). -/
def churnProbabilitySpec (days : Int) : Rat :=
  if days < 30 then 1/20
  else if days < 60 then 3/20
  else if days < 90 then 1/4
  else if days < 180 then 9/20
  else if days < 365 then 7/10
  else 9/10

/-- The record returned by `calculateRFMScores`. -/
structure RFMScores where
  recency : Nat
  frequency : Nat
  monetary : Nat
  combinedScore : Nat
deriving DecidableEq

/-- `calculateRFMScores(customer, orders, calculationDate)`: reads the last
element of `orders` (the call site passes the date-sorted order list). -/
def calculateRFMScores (orders : List Order) (calculationDate : DateTime) :
    RFMScores :=
  let lastOrderDate := ((orders.getLast?).map (·.processed_at)).getD invalidDate
  let daysSinceLastOrder := differenceInDays calculationDate lastOrderDate
  let recencyScore : Nat :=
    if daysSinceLastOrder ≤ 30 then 5
    else if daysSinceLastOrder ≤ 60 then 4
    else if daysSinceLastOrder ≤ 90 then 3
    else if daysSinceLastOrder ≤ 180 then 2
    else 1
  let orderCount := orders.length
  let frequencyScore : Nat :=
    if orderCount ≥ 20 then 5
    else if orderCount ≥ 10 then 4
    else if orderCount ≥ 5 then 3
    else if orderCount ≥ 2 then 2
    else 1
  let totalSpent := calculateTotalRevenue orders
  let monetaryScore : Nat :=
    if totalSpent ≥ 5000 then 5
    else if totalSpent ≥ 2000 then 4
    else if totalSpent ≥ 500 then 3
    else if totalSpent ≥ 100 then 2
    else 1
  { recency := recencyScore
    frequency := frequencyScore
    monetary := monetaryScore
    combinedScore := recencyScore + frequencyScore + monetaryScore }

/-- `determineSegment(rfmScores)`: ordered decision list, first match wins. -/
def determineSegment (rfmScores : RFMScores) : String :=
  let recency := rfmScores.recency
  let frequency := rfmScores.frequency
  let monetary := rfmScores.monetary
  let combinedScore := rfmScores.combinedScore
  if recency ≥ 4 ∧ frequency ≥ 4 ∧ monetary ≥ 4 then "Champions"
  else if frequency ≥ 3 ∧ monetary ≥ 3 ∧ combinedScore ≥ 9 then "Loyal Customers"
  else if recency ≥ 3 ∧ frequency ≥ 2 ∧ combinedScore ≥ 7 then "Potential Loyalists"
  else if recency ≥ 4 ∧ frequency ≤ 2 then "New Customers"
  else if recency ≤ 2 ∧ frequency ≥ 3 ∧ monetary ≥ 3 then "At Risk"
  else if recency ≤ 2 ∧ monetary ≥ 4 then "Cannot Lose"
  else if recency ≤ 2 ∧ frequency ≤ 2 ∧ monetary ≤ 2 then "Hibernating"
  else if monetary ≤ 2 ∧ frequency ≥ 3 then "Price Sensitive"
  else "Regular"

/-- `getEmptyMetrics(customerId, calculationDate)`: the sentinel record. -/
def getEmptyMetrics (customerId : Nat) (calculationDate : DateTime) :
    CustomerMetrics where
  customer_id := customerId
  calculation_date := calculationDate
  total_revenue := 0
  total_orders := 0
  average_order_value := 0
  purchase_frequency := 0
  customer_lifespan_days := 0
  customer_lifetime_value := 0
  churn_probability := 1
  days_since_last_purchase := none
  rfm_recency_score := 1
  rfm_frequency_score := 1
  rfm_monetary_score := 1
  customer_segment := "Inactive"

/-- The non-empty branch of `calculateCustomerMetrics`, applied to the
already-filtered `customerOrders` list.  The JS code mutates one `metrics`
object field by field; the `let` chain below mirrors that assignment order.
In particular `calculateSimpleCLV` and `calculatePredictiveCLV` are invoked
while `churn_probability` still holds the initialiser `0`; the churn step
function is only assigned to the field afterwards. -/
def buildCustomerMetrics (customer : Customer) (customerOrders : List Order)
    (calculationDate : DateTime) : CustomerMetrics :=
  -- JS `customerOrders.sort((a, b) => new Date(a.processed_at) - new
  -- Date(b.processed_at))` is a stable sort by timestamp; insertion sort
  -- with `≤` is that stable sort (and is kernel-reducible).
  let sorted := customerOrders.insertionSort
    (fun a b => a.processed_at.toMs ≤ b.processed_at.toMs)
  let total_revenue := calculateTotalRevenue sorted
  let total_orders := sorted.length
  let average_order_value := total_revenue / (total_orders : Rat)
  let firstOrderDate := ((sorted.head?).map (·.processed_at)).getD invalidDate
  let lastOrderDate := ((sorted.getLast?).map (·.processed_at)).getD invalidDate
  let lifespanRaw := differenceInDays lastOrderDate firstOrderDate
  -- JS `differenceInDays(...) || 1`: a zero difference becomes 1
  let customer_lifespan_days := if lifespanRaw = 0 then 1 else lifespanRaw
  let days_since_last_purchase := differenceInDays calculationDate lastOrderDate
  let monthsActive := max ((customer_lifespan_days : Rat) / 30) 1
  let purchase_frequency := (total_orders : Rat) / monthsActive
  let m0 : CustomerMetrics :=
    { customer_id := customer.id
      calculation_date := calculationDate
      total_revenue := total_revenue
      total_orders := total_orders
      average_order_value := average_order_value
      purchase_frequency := purchase_frequency
      customer_lifespan_days := customer_lifespan_days
      customer_lifetime_value := 0
      churn_probability := 0
      days_since_last_purchase := some days_since_last_purchase
      rfm_recency_score := 0
      rfm_frequency_score := 0
      rfm_monetary_score := 0
      customer_segment := "" }
  let simpleCLV := calculateSimpleCLV m0
  let predictiveCLV := calculatePredictiveCLV m0
  let customer_lifetime_value := (simpleCLV + predictiveCLV) / 2
  let churn_probability := calculateChurnProbability m0
  let rfmScores := calculateRFMScores sorted calculationDate
  { m0 with
    customer_lifetime_value := customer_lifetime_value
    churn_probability := churn_probability
    rfm_recency_score := rfmScores.recency
    rfm_frequency_score := rfmScores.frequency
    rfm_monetary_score := rfmScores.monetary
    customer_segment := determineSegment rfmScores }

/-- `calculateCustomerMetrics(customer, orders, calculationDate)`.

A `null` `orders` argument makes `orders.filter` throw a `TypeError`, which the
function's catch block rethrows — hence `Except.error` for `none`. -/
def calculateCustomerMetrics :
    Customer → Option (List Order) → DateTime → Except String CustomerMetrics
  | _, none, _ =>
    .error "TypeError: Cannot read properties of null (reading filter)"
  | customer, some os, calculationDate =>
    let customerOrders := os.filter (fun o => o.customer_id == some customer.id)
    if customerOrders.length = 0 then
      .ok (getEmptyMetrics customer.id calculationDate)
    else
      .ok (buildCustomerMetrics customer customerOrders calculationDate)

/-- One entry of the `productSales` accumulator / `top_selling_products`. -/
structure ProductSale where
  product_id : String
  title : String
  quantity : Nat
  revenue : Rat
deriving DecidableEq

/-- The `DailyMetrics` record built by `calculateDailyMetrics` (after the
customer `Set` has been converted to its size). -/
structure DailyMetrics where
  metric_date : DateTime
  total_revenue : Rat
  total_orders : Nat
  total_customers : Nat
  new_customers : Nat
  returning_customers : Nat
  average_order_value : Rat
  total_products_sold : Nat
  top_selling_products : List ProductSale
  revenue_by_source : List (String × Rat)
deriving DecidableEq

/-- JS `s || dflt` for an optional string: `null`, `undefined` and `""` are
falsy. -/
def jsOrString (s : Option String) (dflt : String) : String :=
  match s with
  | none => dflt
  | some v => if v = "" then dflt else v

/-- JS `Set.prototype.add`: insertion-ordered, ignores duplicates. -/
def setAdd (s : List Nat) (x : Nat) : List Nat :=
  if s.contains x then s else s ++ [x]

/-- `obj[k] = (obj[k] || 0) + 1` on a JS object modelled as an
insertion-ordered association list. -/
def incrKey : List (Nat × Nat) → Nat → List (Nat × Nat)
  | [], k => [(k, 1)]
  | (k', v) :: rest, k =>
    if k' = k then (k', v + 1) :: rest else (k', v) :: incrKey rest k

/-- `obj[k] = (obj[k] || 0) + amount` on a string-keyed JS object. -/
def addToBucket : List (String × Rat) → String → Rat → List (String × Rat)
  | [], k, amount => [(k, amount)]
  | (k', v) :: rest, k, amount =>
    if k' = k then (k', v + amount) :: rest else (k', v) :: addToBucket rest k amount

/-- The `productSales[productId]` create-or-update step: first sight of a
product id appends a fresh entry (keeping that item's title), later sights add
to its quantity and revenue. -/
def addSale : List ProductSale → String → String → Nat → Rat → List ProductSale
  | [], pid, title, qty, rev => [⟨pid, title, qty, rev⟩]
  | entry :: rest, pid, title, qty, rev =>
    if entry.product_id = pid then
      { entry with quantity := entry.quantity + qty, revenue := entry.revenue + rev } :: rest
    else
      entry :: addSale rest pid title qty rev

/-- Mutable state of the `dayOrders.forEach` loop in `calculateDailyMetrics`. -/
structure DailyAcc where
  total_revenue : Rat
  customersSeen : List Nat
  customerOrderCounts : List (Nat × Nat)
  revenue_by_source : List (String × Rat)
  total_products_sold : Nat
  productSales : List ProductSale
deriving DecidableEq

/-- Body of the inner `order.line_items.forEach(item => ...)`. -/
def processLineItem (acc : DailyAcc) (item : LineItem) : DailyAcc :=
  let acc := { acc with
    total_products_sold := acc.total_products_sold + item.quantity.getD 0 }
  match item.source_product_id with
  | some pid =>
    -- JS `if (productId)`: the empty string is falsy
    if pid = "" then acc
    else { acc with productSales := (addSale acc.productSales pid item.title
      (item.quantity.getD 0)
      ((item.price.getD 0) * ((item.quantity.getD 0 : Nat) : Rat))) }
  | none => acc

/-- Body of the `dayOrders.forEach(order => ...)` loop. -/
def processDailyOrder (acc : DailyAcc) (order : Order) : DailyAcc :=
  let acc := { acc with
    total_revenue := acc.total_revenue + order.total_price.getD 0 }
  let acc :=
    match order.customer_id with
    | some cid =>
      { acc with customersSeen := setAdd acc.customersSeen cid,
                 customerOrderCounts := incrKey acc.customerOrderCounts cid }
    | none => acc
  let source := jsOrString order.source_name "direct"
  let acc := { acc with revenue_by_source := (addToBucket acc.revenue_by_source
    source (order.total_price.getD 0)) }
  match order.line_items with
  | some items => items.foldl processLineItem acc
  | none => acc

/-- `calculateDailyMetrics(orders, products, calculationDate)`.  The
`products` argument is accepted but never read, as in the source. -/
def calculateDailyMetrics (orders : List Order) (_products : List Product)
    (calculationDate : DateTime) : DailyMetrics :=
  let dayOrders := orders.filter
    (fun order => sameDateString order.processed_at calculationDate)
  let acc : DailyAcc := dayOrders.foldl processDailyOrder ⟨0, [], [], [], 0, []⟩
  let total_orders := dayOrders.length
  let average_order_value :=
    if total_orders > 0 then acc.total_revenue / (total_orders : Rat) else 0
  -- JS `sort((a, b) => b.revenue - a.revenue)`: stable descending sort
  let top_selling_products :=
    (acc.productSales.insertionSort (fun a b => b.revenue ≤ a.revenue)).take 10
  let new_customers := (acc.customerOrderCounts.filter (fun e => e.2 = 1)).length
  let returning_customers :=
    (acc.customerOrderCounts.filter (fun e => ¬ e.2 = 1)).length
  { metric_date := calculationDate
    total_revenue := acc.total_revenue
    total_orders := total_orders
    total_customers := acc.customersSeen.length
    new_customers := new_customers
    returning_customers := returning_customers
    average_order_value := average_order_value
    total_products_sold := acc.total_products_sold
    top_selling_products := top_selling_products
    revenue_by_source := acc.revenue_by_source }

/-! ## ETL Orchestrator (`src/pipelines/etlPipeline.js`) -/

/-- One row of the `customersQuery` result in `ETLPipeline.calculateMetrics`:
a customer of the run's source type together with its aggregated orders.  The
SQL `array_agg(...) FILTER (WHERE o.id IS NOT NULL)` yields SQL NULL — `none`
— for a customer with no orders. -/
structure CustomerRow where
  customer : Customer
  orders : Option (List Order)
deriving DecidableEq

/-- The per-customer loop of `ETLPipeline.calculateMetrics`: the sequence of
`CustomerMetrics` rows passed to `upsertCustomerMetrics`, in row order.  The
source guards each iteration with
`if (customer.orders && customer.orders.length > 0)`; a thrown error would
abort the whole step (`Except.error`). -/
def calculateMetricsCustomerUpserts :
    List CustomerRow → DateTime → Except String (List CustomerMetrics)
  | [], _ => .ok []
  | row :: rest, calculationDate =>
    match row.orders with
    | some os =>
      if os.length > 0 then
        match calculateCustomerMetrics row.customer (some os) calculationDate with
        | .ok metrics =>
          (calculateMetricsCustomerUpserts rest calculationDate).map (metrics :: ·)
        | .error e => .error e
      else calculateMetricsCustomerUpserts rest calculationDate
    | none => calculateMetricsCustomerUpserts rest calculationDate

/-- The in-memory `etlLog` record of `runForSource`, as persisted by
`logETLRun` and echoed in the run's return value. -/
structure ETLRunLog where
  pipeline_name : String
  source_type : String
  status : String
  records_extracted : Nat
  records_transformed : Nat
  records_loaded : Nat
  error_message : Option String
  success : Bool
deriving DecidableEq

/-- The external collaborators of one source's run, abstracted to the outcomes
the orchestrator consumes: whether a connector was initialised for the source,
the connector's `testConnection()` result, the watermark of the last
successful run, and the results of the extract / transform / load / metrics
stages (counts of customers, products and orders for the first two, the
`totalLoaded` count for load).  Each `Except.error` stands for that stage
throwing. -/
structure SourceEnv where
  hasConnector : Bool
  testConnection : Bool
  lastRun : Option DateTime
  extract : Option DateTime → Except String (Nat × Nat × Nat)
  transform : Except String (Nat × Nat × Nat)
  load : Except String Nat
  metrics : Except String Unit

/-- The catch block of `runForSource`: stamp the log `failed` with the caught
message and return it (the error is not rethrown). -/
def failRun (log : ETLRunLog) (message : String) : ETLRunLog :=
  { log with status := "failed", error_message := some message, success := false }

/-- `ETLPipeline.runForSource(sourceType)`: the try block laid out as a
sequence of stages, each throw site jumping to the catch with the counters
accumulated so far. -/
def runForSource (env : SourceEnv) (sourceType : String) : ETLRunLog :=
  let log0 : ETLRunLog :=
    { pipeline_name := "main_etl"
      source_type := sourceType
      status := "running"
      records_extracted := 0
      records_transformed := 0
      records_loaded := 0
      error_message := none
      success := false }
  if env.hasConnector = false then
    failRun log0 ("Connector for " ++ sourceType ++ " not initialized")
  else if env.testConnection = false then
    failRun log0 ("Failed to connect to " ++ sourceType)
  else
    match env.extract env.lastRun with
    | .error e => failRun log0 e
    | .ok (customers, products, orders) =>
      let log1 := { log0 with records_extracted := customers + products + orders }
      match env.transform with
      | .error e => failRun log1 e
      | .ok (tCustomers, tProducts, tOrders) =>
        let log2 := { log1 with
          records_transformed := tCustomers + tProducts + tOrders }
        match env.load with
        | .error e => failRun log2 e
        | .ok totalLoaded =>
          let log3 := { log2 with records_loaded := totalLoaded }
          match env.metrics with
          | .error e => failRun log3 e
          | .ok _ => { log3 with status := "success", success := true }

/-- `ETLPipeline.run()` over an explicit list of enabled sources: each source
is run sequentially and its result recorded; `runForSource` never throws, so
one source's failure cannot skip the rest. -/
def runAll (sources : List (String × SourceEnv)) : List (String × ETLRunLog) :=
  sources.map (fun src => (src.1, runForSource src.2 src.1))

/-! ## Concrete sample data used in closed theorems -/

/-- Convenience constructor for sample orders. -/
def mkOrder (id : Nat) (cid : Option Nat) (total : Option Rat) (day : Int)
    (ms : Nat) (src : Option String) (items : Option (List LineItem)) : Order :=
  ⟨id, cid, total, ⟨day, ms⟩, src, items⟩

/-- An order of customer 1 for 100.00, processed 2024-01-01 (epoch day 19723). -/
def orderJan1 : Order := mkOrder 1 (some 1) (some 100) 19723 0 none none

/-- Calculation date 2024-01-11 (epoch day 19733), ten days after `orderJan1`. -/
def calcJan11 : DateTime := ⟨19733, 0⟩

/-- 150.00 order of customer 1 on 2024-01-15 (epoch day 19737), 10:00. -/
def ordJan15a : Order := mkOrder 1 (some 1) (some 150) 19737 36000000 (some "web") none

/-- 75.00 order of customer 2 on 2024-01-15, 14:00. -/
def ordJan15b : Order := mkOrder 2 (some 2) (some 75) 19737 50400000 (some "web") none

/-- 100.00 order of customer 1 on 2024-01-14 (epoch day 19736). -/
def ordJan14 : Order := mkOrder 3 (some 1) (some 100) 19736 36000000 none none

/-- Calculation date 2024-01-15. -/
def jan15 : DateTime := ⟨19737, 0⟩

/-- An order belonging to a different customer (id 2). -/
def strangerOrder : Order := mkOrder 9 (some 2) (some 55) 19725 0 none none

/-- A 10.00 order on 2024-01-15 with no customer id. -/
def noCustOrder : Order := mkOrder 4 none (some 10) 19737 0 none none

/-- A concrete environment whose connector is initialised but fails
`testConnection()`. -/
def envNoConn : SourceEnv :=
  ⟨true, false, none, fun _ => .ok (0, 0, 0), .ok (0, 0, 0), .ok 0, .ok ()⟩

/-! ## Helper lemmas -/

/-- `calculateChurnProbability` agrees with the spec's step function whenever
`days_since_last_purchase` is set. -/
theorem calculateChurnProbability_eq_spec (m : CustomerMetrics) (d : Int)
    (h : m.days_since_last_purchase = some d) :
    calculateChurnProbability m = churnProbabilitySpec d := by
  unfold calculateChurnProbability churnProbabilitySpec
  rw [h]
  rfl

/-! ## Claims -/

/-- C1: the claim states `customer_lifetime_value = (simpleCLV + predictiveCLV)/2`
with predictiveCLV computed from `retention = 1 − churnProbability`, where
churnProbability is the days-since-last-purchase step function.  The code
computes the CLV before assigning `churn_probability`, so `calculatePredictiveCLV`
reads the initialiser `0`: at a single 100.00 order ten days old, the code
returns CLV `18005/3` (predictiveCLV = 100 × 120 = 12000), whereas the claim's
formula — churn = `churnProbabilitySpec 10` = 0.05, retention 0.95 — yields
`(100·1·(1/30) + 100·1·(0.95/(1 + 0.1/12 − 0.95)))/2 = 17135/21`.  This theorem
evaluates the code at that failing input and shows the two values differ. -/
theorem clv_predictive_reads_unset_churn :
    (calculateCustomerMetrics ⟨1⟩ (some [orderJan1]) calcJan11).toOption.map
        (fun m => (m.average_order_value, m.purchase_frequency,
                   m.customer_lifespan_days, m.days_since_last_purchase,
                   m.customer_lifetime_value))
      = some (100, 1, 1, some 10, (18005 : Rat)/3) ∧
    (100 * 1 * ((1 : Rat)/30)
        + 100 * 1 * ((1 - churnProbabilitySpec 10)
            / (1 + (1/10)/12 - (1 - churnProbabilitySpec 10)))) / 2
      ≠ (18005 : Rat)/3 := by
  constructor
  · norm_num [calculateCustomerMetrics, buildCustomerMetrics, orderJan1,
      calcJan11, mkOrder, List.filter, List.insertionSort, List.orderedInsert,
      calculateTotalRevenue, calculateSimpleCLV, calculatePredictiveCLV,
      calculateChurnProbability, calculateRFMScores, determineSegment,
      differenceInDays, DateTime.toMs, msPerDay, getEmptyMetrics]
    simp only [show Int.tdiv 864000000 86400000 = (10 : Int) from by decide]
    norm_num
    exact ⟨_, rfl, rfl, rfl, rfl, rfl, rfl⟩
  · norm_num [churnProbabilitySpec]

/-- C2: the claim states that a `null` or empty `orders` argument yields the
sentinel empty-metrics record.  The empty list does, but `null` makes
`orders.filter` throw a `TypeError` which the catch block rethrows — the
repository's own test ("should handle customer with null orders gracefully")
expects the sentinel, so the code contradicts its own test on the `null`
input. -/
theorem null_orders_throw_instead_of_sentinel :
    calculateCustomerMetrics ⟨1⟩ none calcJan11
        = .error "TypeError: Cannot read properties of null (reading filter)" ∧
    calculateCustomerMetrics ⟨1⟩ none calcJan11
        ≠ .ok (getEmptyMetrics 1 calcJan11) ∧
    calculateCustomerMetrics ⟨1⟩ (some []) calcJan11
        = .ok (getEmptyMetrics 1 calcJan11) := by
  refine ⟨rfl, ?_, rfl⟩
  intro h
  exact Except.noConfusion h

/-- C3 counterexample: a customer read back with no orders (`orders` is SQL
NULL) gets no `CustomerMetrics` upsert in the ComputingMetrics step,
contradicting the claim that a row is upserted for every customer including
those without orders. -/
theorem no_order_customer_gets_no_upsert :
    ¬ ∃ ms m, calculateMetricsCustomerUpserts [⟨⟨7⟩, none⟩] calcJan11 = .ok ms
        ∧ m ∈ ms ∧ m.customer_id = 7 := by
  rintro ⟨ms, m, hok, hmem, -⟩
  have hnil : calculateMetricsCustomerUpserts [⟨⟨7⟩, none⟩] calcJan11
      = .ok ([] : List CustomerMetrics) := rfl
  rw [hnil] at hok
  cases hok
  simp at hmem

/-- Helper: with a non-`null` orders argument, `calculateCustomerMetrics`
never throws. -/
theorem calculateCustomerMetrics_some_isOk (c : Customer) (os : List Order)
    (d : DateTime) : ∃ m, calculateCustomerMetrics c (some os) d = .ok m := by
  simp only [calculateCustomerMetrics]
  split
  · exact ⟨_, rfl⟩
  · exact ⟨_, rfl⟩

/-- C3 (amended): in the ComputingMetrics step, a `CustomerMetrics` row is
computed (via the analytics engine) and upserted exactly for those customers
read back from the store whose order list is present and non-empty; customers
with no orders are skipped. -/
theorem metrics_upserted_iff_nonempty_orders (rows : List CustomerRow)
    (d : DateTime) :
    ∃ ms, calculateMetricsCustomerUpserts rows d = .ok ms ∧
      (∀ r ∈ rows, ∀ os, r.orders = some os → os ≠ [] →
        ∃ m ∈ ms, calculateCustomerMetrics r.customer (some os) d = .ok m) ∧
      (∀ m ∈ ms, ∃ r ∈ rows, ∃ os, r.orders = some os ∧ os ≠ [] ∧
        calculateCustomerMetrics r.customer (some os) d = .ok m) := by
  induction rows with
  | nil => exact ⟨[], rfl, by simp, by simp⟩
  | cons r rest ih =>
    obtain ⟨ms, hms, h1, h2⟩ := ih
    rcases hro : r.orders with _ | os
    · refine ⟨ms, ?_, ?_, ?_⟩
      · simpa [calculateMetricsCustomerUpserts, hro] using hms
      · intro r' hr' os' hos' hne
        rcases List.mem_cons.mp hr' with rfl | hr'
        · rw [hro] at hos'; cases hos'
        · exact h1 r' hr' os' hos' hne
      · intro m hm
        obtain ⟨r', hr', os', h⟩ := h2 m hm
        exact ⟨r', List.mem_cons_of_mem _ hr', os', h⟩
    · by_cases hlen : os.length > 0
      · obtain ⟨m0, hm0⟩ := calculateCustomerMetrics_some_isOk r.customer os d
        refine ⟨m0 :: ms, ?_, ?_, ?_⟩
        · simp [calculateMetricsCustomerUpserts, hro, hlen, hm0, hms, Except.map]
        · intro r' hr' os' hos' hne
          rcases List.mem_cons.mp hr' with rfl | hr'
          · rw [hro] at hos'
            cases hos'
            exact ⟨m0, List.mem_cons_self _ _, hm0⟩
          · obtain ⟨m, hmem, hcalc⟩ := h1 r' hr' os' hos' hne
            exact ⟨m, List.mem_cons_of_mem _ hmem, hcalc⟩
        · intro m hm
          rcases List.mem_cons.mp hm with rfl | hm
          · refine ⟨r, List.mem_cons_self _ _, os, hro, ?_, hm0⟩
            intro h
            subst h
            simp at hlen
          · obtain ⟨r', hr', os', hcond⟩ := h2 m hm
            exact ⟨r', List.mem_cons_of_mem _ hr', os', hcond⟩
      · have hos0 : os = [] := by
          cases os with
          | nil => rfl
          | cons a l => simp at hlen
        refine ⟨ms, ?_, ?_, ?_⟩
        · simpa [calculateMetricsCustomerUpserts, hro, hlen] using hms
        · intro r' hr' os' hos' hne
          rcases List.mem_cons.mp hr' with rfl | hr'
          · rw [hro] at hos'
            cases hos'
            exact absurd hos0 hne
          · exact h1 r' hr' os' hos' hne
        · intro m hm
          obtain ⟨r', hr', rest'⟩ := h2 m hm
          exact ⟨r', List.mem_cons_of_mem _ hr', rest'⟩

/-- Witness for C3 (amended) at a concrete store row. -/
theorem metrics_upserted_iff_nonempty_orders_witness :
    ∃ ms, calculateMetricsCustomerUpserts [⟨⟨1⟩, some [orderJan1]⟩] calcJan11
        = .ok ms ∧
      ∃ m ∈ ms, calculateCustomerMetrics ⟨1⟩ (some [orderJan1]) calcJan11
        = .ok m := by
  obtain ⟨ms, hms, h1, -⟩ :=
    metrics_upserted_iff_nonempty_orders [⟨⟨1⟩, some [orderJan1]⟩] calcJan11
  exact ⟨ms, hms, h1 _ (List.mem_cons_self _ _) [orderJan1] rfl (by simp)⟩

/-- Helper: line-item processing never touches the accumulated revenue. -/
theorem processLineItem_total_revenue (acc : DailyAcc) (item : LineItem) :
    (processLineItem acc item).total_revenue = acc.total_revenue := by
  unfold processLineItem
  rcases item.source_product_id with _ | pid
  · rfl
  · by_cases h : pid = "" <;> simp [h]

/-- Helper: folding line items never touches the accumulated revenue. -/
theorem foldl_processLineItem_total_revenue (items : List LineItem)
    (acc : DailyAcc) :
    (items.foldl processLineItem acc).total_revenue = acc.total_revenue := by
  induction items generalizing acc with
  | nil => rfl
  | cons i is ih => rw [List.foldl_cons, ih, processLineItem_total_revenue]

/-- Helper: each order adds exactly `total_price || 0` to the revenue. -/
theorem processDailyOrder_total_revenue (acc : DailyAcc) (o : Order) :
    (processDailyOrder acc o).total_revenue
      = acc.total_revenue + o.total_price.getD 0 := by
  unfold processDailyOrder
  rcases o.customer_id with _ | cid <;>
    rcases o.line_items with _ | items <;>
    simp [foldl_processLineItem_total_revenue]

/-- Helper: the revenue accumulated by the daily loop is the sum of the
processed orders' totals. -/
theorem foldl_processDailyOrder_total_revenue (l : List Order) (acc : DailyAcc) :
    (l.foldl processDailyOrder acc).total_revenue
      = acc.total_revenue + (l.map (fun o => o.total_price.getD 0)).sum := by
  induction l generalizing acc with
  | nil => simp
  | cons o os ih =>
    rw [List.foldl_cons, ih, processDailyOrder_total_revenue, List.map_cons,
      List.sum_cons, add_assoc]

/-- C4: `calculateDailyMetrics` aggregates exactly the orders whose
`processed_at` calendar date (ignoring time of day) equals the calculation
date's calendar date — `total_orders` is their count, `total_revenue` the sum
of their totals — and on the spec's example (two orders on 2024-01-15
totalling 225.00 and one on 2024-01-14, calculation date 2024-01-15) it
returns `total_orders = 2`, `total_revenue = 225`. -/
theorem dailyMetrics_same_date_orders :
    (∀ (orders : List Order) (products : List Product) (d : DateTime),
      (calculateDailyMetrics orders products d).total_orders
          = (orders.filter (fun o => sameDateString o.processed_at d)).length ∧
      (calculateDailyMetrics orders products d).total_revenue
          = ((orders.filter (fun o => sameDateString o.processed_at d)).map
              (fun o => o.total_price.getD 0)).sum) ∧
    (calculateDailyMetrics [ordJan15a, ordJan15b, ordJan14] [] jan15).total_orders
        = 2 ∧
    (calculateDailyMetrics [ordJan15a, ordJan15b, ordJan14] [] jan15).total_revenue
        = 225 := by
  have hrev : ∀ (orders : List Order) (products : List Product) (d : DateTime),
      (calculateDailyMetrics orders products d).total_revenue
        = ((orders.filter (fun o => sameDateString o.processed_at d)).map
            (fun o => o.total_price.getD 0)).sum := by
    intro orders products d
    show (((orders.filter (fun o => sameDateString o.processed_at d)).foldl
        processDailyOrder ⟨0, [], [], [], 0, []⟩)).total_revenue = _
    rw [foldl_processDailyOrder_total_revenue]
    exact zero_add _
  refine ⟨fun orders products d => ⟨rfl, hrev orders products d⟩, rfl, ?_⟩
  rw [hrev]
  norm_num [ordJan15a, ordJan15b, ordJan14, jan15, mkOrder, sameDateString,
    List.filter, show ((19736 : Int) == 19737) = false from by decide,
    show ((19737 : Int) == 19737) = true from by decide]

/-- Helper: `total_orders` of the non-empty branch is the number of matching
orders (sorting preserves length). -/
theorem buildCustomerMetrics_total_orders (c : Customer) (l : List Order)
    (d : DateTime) : (buildCustomerMetrics c l d).total_orders = l.length := by
  simp [buildCustomerMetrics, List.length_insertionSort]

/-- Helper: the non-empty branch sets
`average_order_value = total_revenue / total_orders`. -/
theorem buildCustomerMetrics_aov (c : Customer) (l : List Order)
    (d : DateTime) :
    (buildCustomerMetrics c l d).average_order_value
      = (buildCustomerMetrics c l d).total_revenue
          / ((buildCustomerMetrics c l d).total_orders : Rat) := by
  simp [buildCustomerMetrics]

/-- Helper: the non-empty branch records a concrete
`days_since_last_purchase` and sets `churn_probability` to the spec's step
function of that value. -/
theorem buildCustomerMetrics_churn (c : Customer) (l : List Order)
    (d : DateTime) :
    ∃ dd, (buildCustomerMetrics c l d).days_since_last_purchase = some dd ∧
      (buildCustomerMetrics c l d).churn_probability = churnProbabilitySpec dd := by
  refine ⟨_, rfl, ?_⟩
  exact calculateChurnProbability_eq_spec _ _ rfl

/-- C5: for every customer with at least one matching order,
`average_order_value × total_orders = total_revenue` — i.e.
`average_order_value = total_revenue / total_orders` when `total_orders > 0`
(and the sentinel's `average_order_value` is `0` with `total_orders = 0`
otherwise). -/
theorem aov_times_orders_eq_revenue (c : Customer) (os : List Order)
    (d : DateTime)
    (h : os.filter (fun o => o.customer_id == some c.id) ≠ []) :
    ∃ m, calculateCustomerMetrics c (some os) d = .ok m ∧
      0 < m.total_orders ∧
      m.average_order_value = m.total_revenue / (m.total_orders : Rat) ∧
      m.average_order_value * (m.total_orders : Rat) = m.total_revenue ∧
      (getEmptyMetrics c.id d).average_order_value = 0 ∧
      (getEmptyMetrics c.id d).total_orders = 0 := by
  have hlen : ¬ (os.filter (fun o => o.customer_id == some c.id)).length = 0 := by
    simpa [List.length_eq_zero] using h
  refine ⟨buildCustomerMetrics c
      (os.filter (fun o => o.customer_id == some c.id)) d,
    ?_, ?_, buildCustomerMetrics_aov c _ d, ?_, rfl, rfl⟩
  · simp only [calculateCustomerMetrics, hlen, if_false]
  · rw [buildCustomerMetrics_total_orders]
    omega
  · rw [buildCustomerMetrics_aov]
    have hn : (((buildCustomerMetrics c
        (os.filter (fun o => o.customer_id == some c.id)) d).total_orders :
          Nat) : Rat) ≠ 0 := by
      rw [buildCustomerMetrics_total_orders]
      exact_mod_cast hlen
    exact div_mul_cancel₀ _ hn

/-- Witness for C5 at a concrete one-order customer. -/
theorem aov_times_orders_eq_revenue_witness :
    ∃ m, calculateCustomerMetrics ⟨1⟩ (some [orderJan1]) calcJan11 = .ok m ∧
      m.average_order_value * (m.total_orders : Rat) = m.total_revenue := by
  obtain ⟨m, hok, -, -, hmul, -, -⟩ :=
    aov_times_orders_eq_revenue ⟨1⟩ [orderJan1] calcJan11 (by decide)
  exact ⟨m, hok, hmul⟩

/-- C6: `determineSegment` is a deterministic function of the RFM triple
evaluated as an ordered decision list where the first matching rule wins:
the all-5 triple yields `Champions` (and so does every triple with all three
scores ≥ 4, the first rule, never a later one), and every triple in
`{1..5}³` maps to one of the nine segment names. -/
theorem segment_decision_list :
    determineSegment ⟨5, 5, 5, 15⟩ = "Champions" ∧
    (∀ r < 2, ∀ f < 2, ∀ m < 2,
      determineSegment ⟨r + 4, f + 4, m + 4, (r + 4) + (f + 4) + (m + 4)⟩
        = "Champions") ∧
    (∀ r < 5, ∀ f < 5, ∀ m < 5,
      determineSegment ⟨r + 1, f + 1, m + 1, (r + 1) + (f + 1) + (m + 1)⟩ ∈
        (["Champions", "Loyal Customers", "Potential Loyalists",
          "New Customers", "At Risk", "Cannot Lose", "Hibernating",
          "Price Sensitive", "Regular"] : List String)) := by
  refine ⟨by decide, by decide, by decide⟩

/-- Witness for C6 at concrete triples. -/
theorem segment_decision_list_witness :
    determineSegment ⟨4, 4, 4, 12⟩ = "Champions" ∧
    determineSegment ⟨1, 2, 3, 6⟩ ∈
      (["Champions", "Loyal Customers", "Potential Loyalists",
        "New Customers", "At Risk", "Cannot Lose", "Hibernating",
        "Price Sensitive", "Regular"] : List String) :=
  ⟨segment_decision_list.2.1 0 (by decide) 0 (by decide) 0 (by decide),
   segment_decision_list.2.2 0 (by decide) 1 (by decide) 2 (by decide)⟩


/-- C7: the churn probability returned for any non-empty matching order set
equals the six-breakpoint right-exclusive step function of
`days_since_last_purchase` (spec-modelled as `churnProbabilitySpec`), and that
step function is monotonically non-decreasing in the days value. -/
theorem churn_step_of_days_and_monotone :
    (∀ (m : CustomerMetrics) (dd : Int), m.days_since_last_purchase = some dd →
      calculateChurnProbability m = churnProbabilitySpec dd) ∧
    (∀ d1 d2 : Int, d1 ≤ d2 →
      churnProbabilitySpec d1 ≤ churnProbabilitySpec d2) ∧
    (∀ (c : Customer) (os : List Order) (cd : DateTime),
      os.filter (fun o => o.customer_id == some c.id) ≠ [] →
      ∃ m, calculateCustomerMetrics c (some os) cd = .ok m ∧
        ∃ dd, m.days_since_last_purchase = some dd ∧
          m.churn_probability = churnProbabilitySpec dd) := by
  refine ⟨calculateChurnProbability_eq_spec, ?_, ?_⟩
  · intro d1 d2 h
    unfold churnProbabilitySpec
    split_ifs <;> first | (exfalso; omega) | norm_num
  · intro c os cd h
    have hlen : ¬ (os.filter (fun o => o.customer_id == some c.id)).length = 0 := by
      simpa [List.length_eq_zero] using h
    refine ⟨buildCustomerMetrics c
        (os.filter (fun o => o.customer_id == some c.id)) cd, ?_,
      buildCustomerMetrics_churn c _ cd⟩
    simp only [calculateCustomerMetrics, hlen, if_false]

/-- Witness for C7 at concrete days values and a concrete customer. -/
theorem churn_step_witness :
    churnProbabilitySpec 10 ≤ churnProbabilitySpec 400 ∧
    calculateChurnProbability
        ⟨1, ⟨0, 0⟩, 0, 0, 0, 0, 0, 0, 0, some 45, 1, 1, 1, "x"⟩
      = churnProbabilitySpec 45 ∧
    (∃ m, calculateCustomerMetrics ⟨1⟩ (some [orderJan1]) calcJan11 = .ok m ∧
      ∃ dd, m.days_since_last_purchase = some dd ∧
        m.churn_probability = churnProbabilitySpec dd) :=
  ⟨churn_step_of_days_and_monotone.2.1 10 400 (by decide),
   churn_step_of_days_and_monotone.1 _ 45 rfl,
   churn_step_of_days_and_monotone.2.2 ⟨1⟩ [orderJan1] calcJan11 (by decide)⟩


/-- C8: when the connector's `testConnection()` reports failure, `runForSource`
catches the failure (returning a log rather than throwing, so `runAll`
processes subsequent sources unchanged) and the persisted run log has
`status = "failed"`, zero extracted/transformed/loaded counts, and an error
message containing "connect". -/
theorem connection_failure_logs_failed (env : SourceEnv) (st : String)
    (h1 : env.hasConnector = true) (h2 : env.testConnection = false) :
    (runForSource env st).status = "failed" ∧
    (runForSource env st).records_extracted = 0 ∧
    (runForSource env st).records_transformed = 0 ∧
    (runForSource env st).records_loaded = 0 ∧
    (runForSource env st).error_message = some ("Failed to connect to " ++ st) ∧
    (∃ pre post, pre ++ "connect".data ++ post
        = ("Failed to connect to " ++ st).data) ∧
    (∀ rest, runAll ((st, env) :: rest)
        = (st, runForSource env st) :: runAll rest) := by
  have hrun : runForSource env st =
      failRun
        { pipeline_name := "main_etl", source_type := st, status := "running",
          records_extracted := 0, records_transformed := 0,
          records_loaded := 0, error_message := none, success := false }
        ("Failed to connect to " ++ st) := by
    unfold runForSource
    rw [h1, h2]
    simp
  refine ⟨by rw [hrun]; rfl, by rw [hrun]; rfl, by rw [hrun]; rfl,
    by rw [hrun]; rfl, by rw [hrun]; rfl, ?_, fun rest => rfl⟩
  refine ⟨"Failed to ".data, (" to " ++ st).data, ?_⟩
  rw [String.data_append, String.data_append]
  rw [show ("Failed to connect to " : String).data
      = ("Failed to " : String).data ++ "connect".data ++ " to ".data from rfl]
  simp [List.append_assoc]

/-- Witness for C8 at a concrete failing-connection environment. -/
theorem connection_failure_witness :
    (runForSource envNoConn "shopify").status = "failed" ∧
    (runForSource envNoConn "shopify").records_extracted = 0 ∧
    (runForSource envNoConn "shopify").records_transformed = 0 ∧
    (runForSource envNoConn "shopify").records_loaded = 0 ∧
    (runForSource envNoConn "shopify").error_message
      = some "Failed to connect to shopify" := by
  obtain ⟨hs, he, ht, hl, hmsg, -, -⟩ :=
    connection_failure_logs_failed envNoConn "shopify" rfl rfl
  exact ⟨hs, he, ht, hl, by rw [hmsg]; rfl⟩


/-- C9: `calculateCustomerMetrics` depends only on the orders whose
`customer_id` equals the given customer's id — order lists with the same
matching sublist give identical results — and a list with no matching order
yields the same sentinel empty-metrics record as the empty list. -/
theorem metrics_depend_only_on_matching_orders :
    (∀ (c : Customer) (os1 os2 : List Order) (d : DateTime),
      os1.filter (fun o => o.customer_id == some c.id)
          = os2.filter (fun o => o.customer_id == some c.id) →
      calculateCustomerMetrics c (some os1) d
        = calculateCustomerMetrics c (some os2) d) ∧
    (∀ (c : Customer) (os : List Order) (d : DateTime),
      os.filter (fun o => o.customer_id == some c.id) = [] →
      calculateCustomerMetrics c (some os) d = .ok (getEmptyMetrics c.id d) ∧
      calculateCustomerMetrics c (some os) d
        = calculateCustomerMetrics c (some []) d) := by
  have key : ∀ (c : Customer) (os1 os2 : List Order) (d : DateTime),
      os1.filter (fun o => o.customer_id == some c.id)
        = os2.filter (fun o => o.customer_id == some c.id) →
      calculateCustomerMetrics c (some os1) d
        = calculateCustomerMetrics c (some os2) d := by
    intro c os1 os2 d h
    simp only [calculateCustomerMetrics, h]
  refine ⟨key, fun c os d h => ⟨?_, key c os [] d (by simp [h])⟩⟩
  simp only [calculateCustomerMetrics, h, List.length_nil]
  rfl

/-- Witness for C9: adding an unrelated customer's order changes nothing, and
a list with only unrelated orders yields the sentinel. -/
theorem metrics_depend_only_on_matching_orders_witness :
    calculateCustomerMetrics ⟨1⟩ (some [orderJan1, strangerOrder]) calcJan11
      = calculateCustomerMetrics ⟨1⟩ (some [orderJan1]) calcJan11 ∧
    calculateCustomerMetrics ⟨1⟩ (some [strangerOrder]) calcJan11
      = .ok (getEmptyMetrics 1 calcJan11) :=
  ⟨metrics_depend_only_on_matching_orders.1 ⟨1⟩ [orderJan1, strangerOrder]
      [orderJan1] calcJan11 rfl,
   (metrics_depend_only_on_matching_orders.2 ⟨1⟩ [strangerOrder] calcJan11
      rfl).1⟩


theorem processLineItem_customersSeen (acc : DailyAcc) (item : LineItem) :
    (processLineItem acc item).customersSeen = acc.customersSeen := by
  unfold processLineItem
  rcases item.source_product_id with _ | pid
  · rfl
  · by_cases h : pid = "" <;> simp [h]

theorem processLineItem_counts (acc : DailyAcc) (item : LineItem) :
    (processLineItem acc item).customerOrderCounts = acc.customerOrderCounts := by
  unfold processLineItem
  rcases item.source_product_id with _ | pid
  · rfl
  · by_cases h : pid = "" <;> simp [h]

theorem foldl_processLineItem_customersSeen (items : List LineItem)
    (acc : DailyAcc) :
    (items.foldl processLineItem acc).customersSeen = acc.customersSeen := by
  induction items generalizing acc with
  | nil => rfl
  | cons i is ih => rw [List.foldl_cons, ih, processLineItem_customersSeen]

theorem foldl_processLineItem_counts (items : List LineItem) (acc : DailyAcc) :
    (items.foldl processLineItem acc).customerOrderCounts
      = acc.customerOrderCounts := by
  induction items generalizing acc with
  | nil => rfl
  | cons i is ih => rw [List.foldl_cons, ih, processLineItem_counts]

theorem processDailyOrder_customersSeen_none (acc : DailyAcc) (o : Order)
    (h : o.customer_id = none) :
    (processDailyOrder acc o).customersSeen = acc.customersSeen := by
  unfold processDailyOrder
  rw [h]
  rcases o.line_items with _ | items <;>
    simp [foldl_processLineItem_customersSeen]

theorem processDailyOrder_customersSeen_some (acc : DailyAcc) (o : Order)
    (cid : Nat) (h : o.customer_id = some cid) :
    (processDailyOrder acc o).customersSeen = setAdd acc.customersSeen cid := by
  unfold processDailyOrder
  rw [h]
  rcases o.line_items with _ | items <;>
    simp [foldl_processLineItem_customersSeen]

theorem processDailyOrder_counts_none (acc : DailyAcc) (o : Order)
    (h : o.customer_id = none) :
    (processDailyOrder acc o).customerOrderCounts = acc.customerOrderCounts := by
  unfold processDailyOrder
  rw [h]
  rcases o.line_items with _ | items <;> simp [foldl_processLineItem_counts]

theorem processDailyOrder_counts_some (acc : DailyAcc) (o : Order) (cid : Nat)
    (h : o.customer_id = some cid) :
    (processDailyOrder acc o).customerOrderCounts
      = incrKey acc.customerOrderCounts cid := by
  unfold processDailyOrder
  rw [h]
  rcases o.line_items with _ | items <;> simp [foldl_processLineItem_counts]

theorem foldl_processDailyOrder_customersSeen (l : List Order) (acc : DailyAcc) :
    (l.foldl processDailyOrder acc).customersSeen
      = (l.filterMap (fun o => o.customer_id)).foldl setAdd acc.customersSeen := by
  induction l generalizing acc with
  | nil => rfl
  | cons o os ih =>
    rw [List.foldl_cons, ih]
    rcases h : o.customer_id with _ | cid
    · simp [List.filterMap_cons, h, processDailyOrder_customersSeen_none acc o h]
    · simp [List.filterMap_cons, h, processDailyOrder_customersSeen_some acc o cid h]

theorem foldl_processDailyOrder_counts (l : List Order) (acc : DailyAcc) :
    (l.foldl processDailyOrder acc).customerOrderCounts
      = (l.filterMap (fun o => o.customer_id)).foldl incrKey
          acc.customerOrderCounts := by
  induction l generalizing acc with
  | nil => rfl
  | cons o os ih =>
    rw [List.foldl_cons, ih]
    rcases h : o.customer_id with _ | cid
    · simp [List.filterMap_cons, h, processDailyOrder_counts_none acc o h]
    · simp [List.filterMap_cons, h, processDailyOrder_counts_some acc o cid h]

theorem map_fst_incrKey (m : List (Nat × Nat)) (k : Nat) :
    (incrKey m k).map Prod.fst = setAdd (m.map Prod.fst) k := by
  induction m with
  | nil => rfl
  | cons e rest ih =>
    rcases e with ⟨k', v⟩
    by_cases h : k' = k
    · subst h
      simp [incrKey, setAdd]
    · have hkk : (k == k') = false := beq_eq_false_iff_ne.mpr (Ne.symm h)
      simp only [incrKey, if_neg h, List.map_cons, ih, setAdd,
        List.contains_cons, hkk, Bool.false_or]
      by_cases hc : (List.map Prod.fst rest).contains k = true
      · rw [if_pos hc, if_pos hc]
      · rw [if_neg hc, if_neg hc, List.cons_append]

theorem map_fst_foldl_incrKey (ids : List Nat) (m : List (Nat × Nat)) :
    (ids.foldl incrKey m).map Prod.fst = ids.foldl setAdd (m.map Prod.fst) := by
  induction ids generalizing m with
  | nil => rfl
  | cons i is ih => rw [List.foldl_cons, List.foldl_cons, ih, map_fst_incrKey]

theorem length_filter_add_length_filter_not (p : (Nat × Nat) → Bool)
    (m : List (Nat × Nat)) :
    (m.filter p).length + (m.filter (fun e => !(p e))).length = m.length := by
  induction m with
  | nil => rfl
  | cons e rest ih =>
    cases hp : p e <;> simp [List.filter_cons, hp] <;> omega

theorem mem_setAdd (s : List Nat) (x y : Nat) :
    y ∈ setAdd s x ↔ y ∈ s ∨ y = x := by
  unfold setAdd
  by_cases h : s.contains x
  · rw [if_pos h]
    have hx : x ∈ s := by simpa [List.contains_iff_exists_mem_beq] using h
    constructor
    · exact Or.inl
    · rintro (hy | rfl)
      · exact hy
      · exact hx
  · rw [if_neg h]
    simp

theorem nodup_setAdd (s : List Nat) (x : Nat) (h : s.Nodup) :
    (setAdd s x).Nodup := by
  unfold setAdd
  by_cases hc : s.contains x
  · rwa [if_pos hc]
  · rw [if_neg hc]
    have hx : x ∉ s := by
      intro hmem
      exact hc (by simpa [List.contains_iff_exists_mem_beq] using hmem)
    rw [← List.concat_eq_append]
    exact h.concat hx

theorem nodup_foldl_setAdd (ids : List Nat) (s : List Nat) (h : s.Nodup) :
    (ids.foldl setAdd s).Nodup := by
  induction ids generalizing s with
  | nil => exact h
  | cons i is ih => exact ih _ (nodup_setAdd s i h)

theorem mem_foldl_setAdd (ids : List Nat) (s : List Nat) (y : Nat) :
    y ∈ ids.foldl setAdd s ↔ y ∈ s ∨ y ∈ ids := by
  induction ids generalizing s with
  | nil => simp
  | cons i is ih =>
    rw [List.foldl_cons, ih, mem_setAdd]
    constructor
    · rintro ((hy | rfl) | hy) <;> simp [*]
    · rw [List.mem_cons]
      rintro (hy | rfl | hy) <;> simp [*]

theorem length_foldl_setAdd_nil (ids : List Nat) :
    (ids.foldl setAdd []).length = ids.dedup.length := by
  have h1 : (ids.foldl setAdd []).Nodup := nodup_foldl_setAdd ids [] (by simp)
  have h2 : ids.dedup.Nodup := ids.nodup_dedup
  have key : (ids.foldl setAdd []).toFinset = ids.dedup.toFinset := by
    ext y
    simp [List.mem_toFinset, mem_foldl_setAdd, List.mem_dedup]
  calc (ids.foldl setAdd []).length
      = (ids.foldl setAdd []).toFinset.card := (List.toFinset_card_of_nodup h1).symm
    _ = ids.dedup.toFinset.card := by rw [key]
    _ = ids.dedup.length := List.toFinset_card_of_nodup h2


/-- C10: in every `calculateDailyMetrics` result,
`new_customers + returning_customers = total_customers`, which equals the
number of distinct non-null customer ids among the day's orders; an order
without a `customer_id` is counted in `total_orders` and `total_revenue` but
in none of the three customer counts. -/
theorem daily_customer_count_invariants :
    (∀ (orders : List Order) (products : List Product) (d : DateTime),
      (calculateDailyMetrics orders products d).new_customers
          + (calculateDailyMetrics orders products d).returning_customers
        = (calculateDailyMetrics orders products d).total_customers ∧
      (calculateDailyMetrics orders products d).total_customers
        = ((orders.filter (fun o => sameDateString o.processed_at d)).filterMap
            (fun o => o.customer_id)).dedup.length) ∧
    (∀ (o : Order) (orders : List Order) (products : List Product)
        (d : DateTime),
      o.customer_id = none → sameDateString o.processed_at d = true →
      (calculateDailyMetrics (o :: orders) products d).total_customers
          = (calculateDailyMetrics orders products d).total_customers ∧
      (calculateDailyMetrics (o :: orders) products d).new_customers
          = (calculateDailyMetrics orders products d).new_customers ∧
      (calculateDailyMetrics (o :: orders) products d).returning_customers
          = (calculateDailyMetrics orders products d).returning_customers ∧
      (calculateDailyMetrics (o :: orders) products d).total_orders
          = (calculateDailyMetrics orders products d).total_orders + 1 ∧
      (calculateDailyMetrics (o :: orders) products d).total_revenue
          = o.total_price.getD 0
              + (calculateDailyMetrics orders products d).total_revenue) := by
  have Hseen : ∀ (orders : List Order) (products : List Product) (d : DateTime),
      (calculateDailyMetrics orders products d).total_customers
        = (((orders.filter (fun o => sameDateString o.processed_at d)).filterMap
            (fun o => o.customer_id)).foldl setAdd []).length := by
    intro orders products d
    show (((orders.filter (fun o => sameDateString o.processed_at d)).foldl
        processDailyOrder ⟨0, [], [], [], 0, []⟩).customersSeen).length = _
    rw [foldl_processDailyOrder_customersSeen]
  have Hcounts : ∀ (orders : List Order) (products : List Product)
      (d : DateTime),
      ((orders.filter (fun o => sameDateString o.processed_at d)).foldl
          processDailyOrder ⟨0, [], [], [], 0, []⟩).customerOrderCounts
        = ((orders.filter (fun o => sameDateString o.processed_at d)).filterMap
            (fun o => o.customer_id)).foldl incrKey [] := by
    intro orders products d
    exact foldl_processDailyOrder_counts _ _
  have Hnew : ∀ (orders : List Order) (products : List Product) (d : DateTime),
      (calculateDailyMetrics orders products d).new_customers
        = ((((orders.filter (fun o => sameDateString o.processed_at d)).filterMap
            (fun o => o.customer_id)).foldl incrKey []).filter
              (fun e => e.2 = 1)).length := by
    intro orders products d
    show ((((orders.filter (fun o => sameDateString o.processed_at d)).foldl
        processDailyOrder ⟨0, [], [], [], 0, []⟩).customerOrderCounts).filter
          (fun e => e.2 = 1)).length = _
    rw [Hcounts orders products d]
  have Hret : ∀ (orders : List Order) (products : List Product) (d : DateTime),
      (calculateDailyMetrics orders products d).returning_customers
        = ((((orders.filter (fun o => sameDateString o.processed_at d)).filterMap
            (fun o => o.customer_id)).foldl incrKey []).filter
              (fun e => ¬ e.2 = 1)).length := by
    intro orders products d
    show ((((orders.filter (fun o => sameDateString o.processed_at d)).foldl
        processDailyOrder ⟨0, [], [], [], 0, []⟩).customerOrderCounts).filter
          (fun e => ¬ e.2 = 1)).length = _
    rw [Hcounts orders products d]
  have Hrev : ∀ (orders : List Order) (products : List Product) (d : DateTime),
      (calculateDailyMetrics orders products d).total_revenue
        = ((orders.filter (fun o => sameDateString o.processed_at d)).map
            (fun o => o.total_price.getD 0)).sum := by
    intro orders products d
    show (((orders.filter (fun o => sameDateString o.processed_at d)).foldl
        processDailyOrder ⟨0, [], [], [], 0, []⟩)).total_revenue = _
    rw [foldl_processDailyOrder_total_revenue]
    exact zero_add _
  constructor
  · intro orders products d
    constructor
    · rw [Hnew orders products d, Hret orders products d, Hseen orders products d]
      have hsum := length_filter_add_length_filter_not
        (fun e => decide (e.2 = 1))
        (((orders.filter (fun o => sameDateString o.processed_at d)).filterMap
            (fun o => o.customer_id)).foldl incrKey [])
      have hkeys : ((((orders.filter
          (fun o => sameDateString o.processed_at d)).filterMap
            (fun o => o.customer_id)).foldl incrKey []).map Prod.fst).length
          = (((orders.filter (fun o => sameDateString o.processed_at d)).filterMap
            (fun o => o.customer_id)).foldl setAdd []).length := by
        rw [map_fst_foldl_incrKey]
        rfl
      rw [← hkeys, List.length_map]
      simpa [decide_not] using hsum
    · rw [Hseen orders products d, length_foldl_setAdd_nil]
  · intro o orders products d hnone hsame
    have hfil : (o :: orders).filter (fun x => sameDateString x.processed_at d)
        = o :: orders.filter (fun x => sameDateString x.processed_at d) := by
      rw [List.filter_cons, if_pos hsame]
    have hids : ((o :: orders).filter
          (fun x => sameDateString x.processed_at d)).filterMap
            (fun x => x.customer_id)
        = (orders.filter (fun x => sameDateString x.processed_at d)).filterMap
            (fun x => x.customer_id) := by
      rw [hfil]
      simp [List.filterMap_cons, hnone]
    refine ⟨?_, ?_, ?_, ?_, ?_⟩
    · rw [Hseen (o :: orders) products d, Hseen orders products d, hids]
    · rw [Hnew (o :: orders) products d, Hnew orders products d, hids]
    · rw [Hret (o :: orders) products d, Hret orders products d, hids]
    · show ((o :: orders).filter (fun x => sameDateString x.processed_at d)).length
        = (orders.filter (fun x => sameDateString x.processed_at d)).length + 1
      rw [hfil, List.length_cons]
    · rw [Hrev (o :: orders) products d, Hrev orders products d, hfil,
        List.map_cons, List.sum_cons]


/-- Witness for C10: prepending an order with no customer id leaves the
customer counts unchanged while `total_orders` grows by one. -/
theorem daily_customer_count_invariants_witness :
    (calculateDailyMetrics [noCustOrder, ordJan15a] [] jan15).total_customers
        = (calculateDailyMetrics [ordJan15a] [] jan15).total_customers ∧
    (calculateDailyMetrics [noCustOrder, ordJan15a] [] jan15).total_orders
        = (calculateDailyMetrics [ordJan15a] [] jan15).total_orders + 1 := by
  obtain ⟨h1, -, -, h4, -⟩ :=
    daily_customer_count_invariants.2 noCustOrder [ordJan15a] [] jan15 rfl rfl
  exact ⟨h1, h4⟩

end MetricPulse
